import Mathlib

/-!
Verification of the atmospheric-circulation simulation core.

The JavaScript source is shallowly embedded: JS numbers become real
numbers, the three parallel 3D field arrays of `ThermalSystem` become
functions from indices to reals (the code only ever reads indices that
pass the explicit range guards, so values at other indices are inert),
and the per-particle parallel arrays of `ParticleSystem` become
functions from the particle index, together with a `velLen` counter
tracking the length of the growable JS `velocities` array.  `Math.random`
becomes an explicit stream `rng : ℕ → ℝ` consumed three values at a time
by `initializeParticle`, exactly as the code draws them.
-/

/-- A THREE.Vector3-style triple of coordinates. -/
structure Vec3 where
  x : ℝ
  y : ℝ
  z : ℝ

namespace ThermalSystem

/-- Construction-time configuration of `ThermalSystem` (`this.params`). -/
structure Params where
  gridSize : ℕ
  heightLevels : ℕ
  heatX : ℝ
  heatZ : ℝ
  coldX : ℝ
  coldZ : ℝ
  baseTemperature : ℝ

/-- The mutable state of a `ThermalSystem`: configuration, the two source
intensities, and the three fields indexed by `(h, x, z)`. -/
structure State where
  params : Params
  heatIntensity : ℝ
  coldIntensity : ℝ
  temperatureField : ℕ → ℕ → ℕ → ℝ
  pressureField : ℕ → ℕ → ℕ → ℝ
  densityField : ℕ → ℕ → ℕ → ℝ

/-- `const height = (h / heightLevels) * 2000` as used in `initializeFields`,
`updateTemperatureField` and `updatePressureField`. -/
noncomputable def heightOf (p : Params) (h : ℕ) : ℝ :=
  ((h : ℝ) / (p.heightLevels : ℝ)) * 2000

/-- `calculateBasePressure(height)`: the standard-atmosphere formula
`101325 * Math.pow(1 - 0.0065 * height / 288.15, 5.255)`. -/
noncomputable def calculateBasePressure (height : ℝ) : ℝ :=
  101325 * (1 - 0.0065 * height / 288.15) ^ (5.255 : ℝ)

/-- `calculateDensity(pressure, temperature)`: the ideal-gas relation
`pressure / (R * (temperature + 273.15))` with `R = 287.05`. -/
noncomputable def calculateDensity (pressure temperature : ℝ) : ℝ :=
  pressure / (287.05 * (temperature + 273.15))

/-- The baseline temperature seeded by `initializeFields`:
`baseTemperature - height * 0.0065`. -/
noncomputable def initTemperature (p : Params) (h : ℕ) : ℝ :=
  p.baseTemperature - heightOf p h * 0.0065

/-- `initializeFields` (together with the constructor): every cell of the
grid receives the baseline temperature, pressure and density for its
height; the constructor starts the intensities at the given values
(`80` and `60` in the source constructor). -/
noncomputable def initState (p : Params) (heatI coldI : ℝ) : State where
  params := p
  heatIntensity := heatI
  coldIntensity := coldI
  temperatureField := fun h _ _ => initTemperature p h
  pressureField := fun h _ _ => calculateBasePressure (heightOf p h)
  densityField := fun h _ _ =>
    calculateDensity (calculateBasePressure (heightOf p h)) (initTemperature p h)

/-- `const worldX = (x - gridSize/2) * (4000/gridSize)` in
`updateTemperatureField`. -/
noncomputable def worldX (p : Params) (x : ℕ) : ℝ :=
  ((x : ℝ) - (p.gridSize : ℝ) / 2) * (4000 / (p.gridSize : ℝ))

/-- `const worldZ = (z - gridSize/2) * (1000/gridSize)` in
`updateTemperatureField`. -/
noncomputable def worldZ (p : Params) (z : ℕ) : ℝ :=
  ((z : ℝ) - (p.gridSize : ℝ) / 2) * (1000 / (p.gridSize : ℝ))

/-- Planar distance from cell `(x, z)` to the heat source
(`Math.sqrt(Math.pow(worldX - heatSourcePos.x, 2) + Math.pow(worldZ - heatSourcePos.z, 2))`). -/
noncomputable def heatDist (p : Params) (x z : ℕ) : ℝ :=
  Real.sqrt ((worldX p x - p.heatX) ^ 2 + (worldZ p z - p.heatZ) ^ 2)

/-- Planar distance from cell `(x, z)` to the cold source. -/
noncomputable def coldDist (p : Params) (x z : ℕ) : ℝ :=
  Real.sqrt ((worldX p x - p.coldX) ^ 2 + (worldZ p z - p.coldZ) ^ 2)

/-- The per-cell body of `updateTemperatureField`: add the heat-source
influence when within radius 800, subtract the cold-source influence when
within radius 800, then subtract the lapse correction
`height * 0.0065 * 0.01`. -/
noncomputable def tempStep (p : Params) (heatI coldI : ℝ) (h x z : ℕ) (t : ℝ) : ℝ :=
  let t1 := if heatDist p x z < 800
    then t + (1 - heatDist p x z / 800) * heatI / 100 * 0.1
    else t
  let t2 := if coldDist p x z < 800
    then t1 - (1 - coldDist p x z / 800) * coldI / 100 * 0.1
    else t1
  t2 - heightOf p h * 0.0065 * 0.01

/-- The net change `tempStep` makes to a cell, as a closed term. -/
noncomputable def tempDelta (p : Params) (heatI coldI : ℝ) (h x z : ℕ) : ℝ :=
  (if heatDist p x z < 800 then (1 - heatDist p x z / 800) * heatI / 100 * 0.1 else 0)
    - (if coldDist p x z < 800 then (1 - coldDist p x z / 800) * coldI / 100 * 0.1 else 0)
    - heightOf p h * 0.0065 * 0.01

/-- `updateTemperatureField()`: apply `tempStep` to every cell of the grid
(the loops cover exactly the indices below the configured bounds). -/
noncomputable def updateTemperatureField (st : State) : State :=
  { st with
    temperatureField := fun h x z =>
      if h < st.params.heightLevels ∧ x < st.params.gridSize ∧ z < st.params.gridSize then
        tempStep st.params st.heatIntensity st.coldIntensity h x z
          (st.temperatureField h x z)
      else st.temperatureField h x z }

/-- The per-cell pressure of `updatePressureField`:
`basePressure * (1 - (tempRatio - 1) * 0.1)` with
`tempRatio = (temp + 273.15) / 288.15`. -/
noncomputable def pressureStep (p : Params) (h : ℕ) (t : ℝ) : ℝ :=
  calculateBasePressure (heightOf p h) * (1 - ((t + 273.15) / 288.15 - 1) * 0.1)

/-- `updatePressureField()`: recompute pressure from the current
temperature of each cell, and density via `calculateDensity`. -/
noncomputable def updatePressureField (st : State) : State :=
  { st with
    pressureField := fun h x z =>
      if h < st.params.heightLevels ∧ x < st.params.gridSize ∧ z < st.params.gridSize then
        pressureStep st.params h (st.temperatureField h x z)
      else st.pressureField h x z
    densityField := fun h x z =>
      if h < st.params.heightLevels ∧ x < st.params.gridSize ∧ z < st.params.gridSize then
        calculateDensity (pressureStep st.params h (st.temperatureField h x z))
          (st.temperatureField h x z)
      else st.densityField h x z }

/-- `updateFields(deltaTime)`: run the temperature pass over the whole
grid, then the pressure/density pass (the visualization update touches no
field data).  The `deltaTime` argument is accepted but never read. -/
noncomputable def updateFields (deltaTime : ℝ) (st : State) : State :=
  updatePressureField (updateTemperatureField st)

/-- `getTemperatureAt(x, y, z)`: nearest-cell lookup with the ambient
baseline temperature as the out-of-range sentinel. -/
noncomputable def getTemperatureAt (st : State) (x y z : ℝ) : ℝ :=
  let spacing : ℝ := 4000 / (st.params.gridSize : ℝ)
  let gridX : ℤ := ⌊(x + 2000) / spacing⌋
  let gridZ : ℤ := ⌊(z + 500) / spacing⌋
  let gridH : ℤ := ⌊y / 100⌋
  if 0 ≤ gridX ∧ gridX < (st.params.gridSize : ℤ) ∧
      0 ≤ gridZ ∧ gridZ < (st.params.gridSize : ℤ) ∧
      0 ≤ gridH ∧ gridH < (st.params.heightLevels : ℤ) then
    st.temperatureField gridH.toNat gridX.toNat gridZ.toNat
  else st.params.baseTemperature

/-- `getPressureAt(x, y, z)`: nearest-cell lookup with `101325` as the
out-of-range sentinel. -/
noncomputable def getPressureAt (st : State) (x y z : ℝ) : ℝ :=
  let spacing : ℝ := 4000 / (st.params.gridSize : ℝ)
  let gridX : ℤ := ⌊(x + 2000) / spacing⌋
  let gridZ : ℤ := ⌊(z + 500) / spacing⌋
  let gridH : ℤ := ⌊y / 100⌋
  if 0 ≤ gridX ∧ gridX < (st.params.gridSize : ℤ) ∧
      0 ≤ gridZ ∧ gridZ < (st.params.gridSize : ℤ) ∧
      0 ≤ gridH ∧ gridH < (st.params.heightLevels : ℤ) then
    st.pressureField gridH.toNat gridX.toNat gridZ.toNat
  else 101325

/-- `getWindVectorAt(x, y, z)`: one-sided pressure differences at offset
`delta = 50` for the horizontal components, and the buoyancy proxy
`(temp - tempBelow) * 0.01` for the vertical component. -/
noncomputable def getWindVectorAt (st : State) (x y z : ℝ) : Vec3 :=
  let delta : ℝ := 50
  let p0 := getPressureAt st x y z
  let px := getPressureAt st (x + delta) y z
  let pz := getPressureAt st x y (z + delta)
  let fx := -(px - p0) / delta
  let fz := -(pz - p0) / delta
  let temp := getTemperatureAt st x y z
  let tempBelow := getTemperatureAt st x (y - 100) z
  let fy := (temp - tempBelow) * 0.01
  ⟨fx, fy, fz⟩

/-- The ideal-gas invariant between the three stored fields of one cell. -/
noncomputable def densityInvariantAt (st : State) (h x z : ℕ) : Prop :=
  st.densityField h x z =
    st.pressureField h x z / (287.05 * (st.temperatureField h x z + 273.15))

end ThermalSystem

/-- The configuration the application passes to `new ThermalSystem`. -/
def appParams : ThermalSystem.Params where
  gridSize := 50
  heightLevels := 20
  heatX := -800
  heatZ := 0
  coldX := 800
  coldZ := 0
  baseTemperature := 20

/-- The thermal system right after construction with the application
configuration (constructor intensities 80 and 60). -/
noncomputable def initApp : ThermalSystem.State :=
  ThermalSystem.initState appParams 80 60

namespace ParticleSystem

/-- The state of a `ParticleSystem`: the configured capacity and speed
multiplier, the per-particle position and velocity storage, the length
of the growable JS `velocities` array (`velLen`), the `Math.random`
stream with its cursor, and the run flag. -/
structure PState where
  maxParticles : ℕ
  particleSpeed : ℝ
  positions : ℕ → Vec3
  velocities : ℕ → Vec3
  velLen : ℕ
  rng : ℕ → ℝ
  rngIndex : ℕ
  isActive : Bool

/-- `(Math.random() - 0.5) * 4000`, the fresh x coordinate. -/
def freshX (r : ℝ) : ℝ := (r - 0.5) * 4000

/-- `Math.random() * 2000`, the fresh y coordinate. -/
def freshY (r : ℝ) : ℝ := r * 2000

/-- `(Math.random() - 0.5) * 1000`, the fresh z coordinate. -/
def freshZ (r : ℝ) : ℝ := (r - 0.5) * 1000

/-- `initializeParticle(index)`: draw three stream values for a fresh
position, zero the velocity of the slot, and extend the JS array length
when the index is beyond it (the colour and size writes touch no state
the simulation reads back). -/
def initializeParticle (ps : PState) (i : ℕ) : PState :=
  { ps with
    positions := Function.update ps.positions i
      ⟨freshX (ps.rng ps.rngIndex),
       freshY (ps.rng (ps.rngIndex + 1)),
       freshZ (ps.rng (ps.rngIndex + 2))⟩
    velocities := Function.update ps.velocities i ⟨0, 0, 0⟩
    velLen := max ps.velLen (i + 1)
    rngIndex := ps.rngIndex + 3 }

/-- `createParticleSystem()`: allocate fresh (zero-filled) position
storage of the configured capacity, then run `initializeParticle(i)` for
every `i < maxParticles`.  The `velocities` array is **not** reallocated
by this method — only the constructor starts it empty. -/
def createParticleSystem (ps : PState) : PState :=
  (List.range ps.maxParticles).foldl (fun s i => initializeParticle s i)
    { ps with positions := fun _ => ⟨0, 0, 0⟩ }

/-- `new ParticleSystem(...)`: the constructor fields (`velocities = []`,
fresh attribute arrays) followed by `init()`. -/
def mkParticleSystem (maxP : ℕ) (speed : ℝ) (rng : ℕ → ℝ) : PState :=
  createParticleSystem
    { maxParticles := maxP
      particleSpeed := speed
      positions := fun _ => ⟨0, 0, 0⟩
      velocities := fun _ => ⟨0, 0, 0⟩
      velLen := 0
      rng := rng
      rngIndex := 0
      isActive := false }

/-- `setParticleCount(count)`: clamp to `[100, 2000]`, store the new
capacity, dispose the mesh and re-run `init()` (i.e.
`createParticleSystem`). -/
def setParticleCount (ps : PState) (count : ℤ) : PState :=
  let newCount := max 100 (min 2000 count)
  createParticleSystem { ps with maxParticles := newCount.toNat }

/-- THREE.Vector3 `length()`. -/
noncomputable def vlen (v : Vec3) : ℝ := Real.sqrt (v.x ^ 2 + v.y ^ 2 + v.z ^ 2)

/-- THREE.Vector3 `multiplyScalar`. -/
def smul (c : ℝ) (v : Vec3) : Vec3 := ⟨c * v.x, c * v.y, c * v.z⟩

/-- The buoyancy force computed inside `updateParticle`:
`(temperature - baseTemperature) * 0.001` with the local constant
`baseTemperature = 20`. -/
noncomputable def buoyancyForce (th : ThermalSystem.State) (x y z : ℝ) : ℝ :=
  let baseTemperature : ℝ := 20
  (ThermalSystem.getTemperatureAt th x y z - baseTemperature) * 0.001

/-- The particle velocity after the force accumulation of
`updateParticle` (wind times `dt`, plus the buoyancy term times `dt` on
the vertical component), before drag and the speed clamp. -/
noncomputable def velAfterForces (th : ThermalSystem.State) (ps : PState)
    (i : ℕ) (dt : ℝ) : Vec3 :=
  let pos := ps.positions i
  let w := ThermalSystem.getWindVectorAt th pos.x pos.y pos.z
  let v := ps.velocities i
  ⟨v.x + w.x * dt,
   v.y + w.y * dt + buoyancyForce th pos.x pos.y pos.z * dt,
   v.z + w.z * dt⟩

/-- The particle velocity after drag (`*= 0.98`) and the speed clamp
(renormalize to 20 when the length exceeds `maxSpeed = 20`). -/
noncomputable def velClamped (th : ThermalSystem.State) (ps : PState)
    (i : ℕ) (dt : ℝ) : Vec3 :=
  let v := smul 0.98 (velAfterForces th ps i dt)
  if vlen v > 20 then smul (20 / vlen v) v else v

/-- The position written back by the integration step
(`positions[i] += velocity * dt`). -/
noncomputable def integratedPos (th : ThermalSystem.State) (ps : PState)
    (i : ℕ) (dt : ℝ) : Vec3 :=
  let pos := ps.positions i
  let v := velClamped th ps i dt
  ⟨pos.x + v.x * dt, pos.y + v.y * dt, pos.z + v.z * dt⟩

/-- The escape condition of `checkBoundaries`. -/
def outOfBounds (p : Vec3) : Prop :=
  |p.x| > 2000 ∨ p.y < 0 ∨ p.y > 2000 ∨ |p.z| > 500

noncomputable instance (p : Vec3) : Decidable (outOfBounds p) := by
  unfold outOfBounds; infer_instance

/-- `updateParticle(index, deltaTime)`: integrate the slot, then
`checkBoundaries` reinitializes it when the new position escaped the
domain (the colour update afterwards touches no simulation state). -/
noncomputable def updateParticle (th : ThermalSystem.State) (ps : PState)
    (i : ℕ) (dt : ℝ) : PState :=
  let moved :=
    { ps with
      positions := Function.update ps.positions i (integratedPos th ps i dt)
      velocities := Function.update ps.velocities i (velClamped th ps i dt) }
  if outOfBounds (integratedPos th ps i dt) then initializeParticle moved i
  else moved

/-- `update(deltaTime)`: when active, advect every slot in index order
with `deltaTime * particleSpeed`. -/
noncomputable def update (th : ThermalSystem.State) (ps : PState) (dt : ℝ) : PState :=
  if ps.isActive then
    (List.range ps.maxParticles).foldl
      (fun s i => updateParticle th s i (dt * ps.particleSpeed)) ps
  else ps

end ParticleSystem

namespace ThermalSystem

/-- The temperature a cell holds after one update, written exactly as the
specification words it: add `(1 - dist/800) * heatIntensity/100 * 0.1`
within the heat radius, subtract the symmetric cold term within the cold
radius, then subtract the lapse correction `height * 0.0065 * 0.01`. -/
noncomputable def specTempAfter (st : State) (h x z : ℕ) : ℝ :=
  let dH := heatDist st.params x z
  let dC := coldDist st.params x z
  let t0 := st.temperatureField h x z
  let t1 := if dH < 800 then t0 + (1 - dH / 800) * (st.heatIntensity / 100) * 0.1 else t0
  let t2 := if dC < 800 then t1 - (1 - dC / 800) * (st.coldIntensity / 100) * 0.1 else t1
  t2 - heightOf st.params h * 0.0065 * 0.01

/-- The pressure a cell holds after one update, written as the
specification words it: `baseline(height) * (1 - (T_ratio - 1) * 0.1)`
with `T_ratio = (T + 273.15) / 288.15` taken at the pass-1 temperature. -/
noncomputable def specPressureAfter (st : State) (h x z : ℕ) : ℝ :=
  calculateBasePressure (heightOf st.params h) *
    (1 - ((specTempAfter st h x z + 273.15) / 288.15 - 1) * 0.1)

/-- The density a cell holds after one update, per the specification:
derived from the new pressure and the pass-1 temperature through the
ideal-gas invariant. -/
noncomputable def specDensityAfter (st : State) (h x z : ℕ) : ℝ :=
  specPressureAfter st h x z / (287.05 * (specTempAfter st h x z + 273.15))

end ThermalSystem

/-- The end-to-end scenario configuration: grid 10 by 10 with 4 height
levels, heat source at (-800, 0), cold source at (800, 0). -/
def c4Params : ThermalSystem.Params where
  gridSize := 10
  heightLevels := 4
  heatX := -800
  heatZ := 0
  coldX := 800
  coldZ := 0
  baseTemperature := 20

/-- The end-to-end scenario start state: heat intensity 100, cold
intensity 0. -/
noncomputable def c4State : ThermalSystem.State :=
  ThermalSystem.initState c4Params 100 0

/-- A thermal system constructed with a baseline temperature of 30
instead of the default 20 (intensities as in the constructor). -/
noncomputable def th30 : ThermalSystem.State :=
  ThermalSystem.initState { appParams with baseTemperature := 30 } 80 60

/-- A one-particle state whose particle rests, with zero velocity, at the
out-of-domain point (3000, 1000, 0); its stream constantly yields 0. -/
noncomputable def psW : ParticleSystem.PState where
  maxParticles := 1
  particleSpeed := 1
  positions := fun _ => ⟨3000, 1000, 0⟩
  velocities := fun _ => ⟨0, 0, 0⟩
  velLen := 1
  rng := fun _ => 0
  rngIndex := 0
  isActive := true

namespace ThermalSystem

lemma updateFields_params (dt : ℝ) (st : State) :
    (updateFields dt st).params = st.params := rfl

lemma updateFields_heat (dt : ℝ) (st : State) :
    (updateFields dt st).heatIntensity = st.heatIntensity := rfl

lemma updateFields_cold (dt : ℝ) (st : State) :
    (updateFields dt st).coldIntensity = st.coldIntensity := rfl

lemma updateFields_temperature (dt : ℝ) (st : State) (h x z : ℕ)
    (hb : h < st.params.heightLevels ∧ x < st.params.gridSize ∧ z < st.params.gridSize) :
    (updateFields dt st).temperatureField h x z
      = tempStep st.params st.heatIntensity st.coldIntensity h x z
          (st.temperatureField h x z) := by
  show (updateTemperatureField st).temperatureField h x z = _
  simp only [updateTemperatureField]
  rw [if_pos hb]

lemma updateFields_pressure (dt : ℝ) (st : State) (h x z : ℕ)
    (hb : h < st.params.heightLevels ∧ x < st.params.gridSize ∧ z < st.params.gridSize) :
    (updateFields dt st).pressureField h x z
      = pressureStep st.params h
          (tempStep st.params st.heatIntensity st.coldIntensity h x z
            (st.temperatureField h x z)) := by
  show (updatePressureField (updateTemperatureField st)).pressureField h x z = _
  simp only [updatePressureField, updateTemperatureField]
  rw [if_pos hb, if_pos hb]

lemma updateFields_density (dt : ℝ) (st : State) (h x z : ℕ)
    (hb : h < st.params.heightLevels ∧ x < st.params.gridSize ∧ z < st.params.gridSize) :
    (updateFields dt st).densityField h x z
      = calculateDensity
          (pressureStep st.params h
            (tempStep st.params st.heatIntensity st.coldIntensity h x z
              (st.temperatureField h x z)))
          (tempStep st.params st.heatIntensity st.coldIntensity h x z
            (st.temperatureField h x z)) := by
  show (updatePressureField (updateTemperatureField st)).densityField h x z = _
  simp only [updatePressureField, updateTemperatureField]
  rw [if_pos hb, if_pos hb]

lemma tempStep_eq_delta (p : Params) (hi ci : ℝ) (h x z : ℕ) (t : ℝ) :
    tempStep p hi ci h x z t = t + tempDelta p hi ci h x z := by
  unfold tempStep tempDelta
  split_ifs <;> ring

/-- C10: `updateFields` never reads its `deltaTime` argument, so two
calls with different time steps from the same state produce identical
temperature, pressure and density fields. -/
theorem updateFields_dt_independent (st : State) (dt1 dt2 : ℝ) :
    updateFields dt1 st = updateFields dt2 st := rfl

/-- C8: `getWindVectorAt` returns exactly the one-sided pressure
differences at offset 50 horizontally and the buoyancy proxy
`(T(x,y,z) - T(x,y-100,z)) * 0.01` vertically, in every grid state. -/
theorem windVector_formula (st : State) (x y z : ℝ) :
    getWindVectorAt st x y z =
      ⟨-(getPressureAt st (x + 50) y z - getPressureAt st x y z) / 50,
       (getTemperatureAt st x y z - getTemperatureAt st x (y - 100) z) * 0.01,
       -(getPressureAt st x y (z + 50) - getPressureAt st x y z) / 50⟩ := rfl

/-- C1: the stored density equals
`pressure / (287.05 * (temperature + 273.15))` at every cell, both right
after field initialization and right after any `updateFields` call from
any state. -/
theorem density_invariant_holds (p : Params) (hi ci dt : ℝ) (st : State) (h x z : ℕ)
    (h1 : h < st.params.heightLevels) (h2 : x < st.params.gridSize)
    (h3 : z < st.params.gridSize) :
    densityInvariantAt (initState p hi ci) h x z ∧
      densityInvariantAt (updateFields dt st) h x z := by
  constructor
  · simp [densityInvariantAt, initState, calculateDensity]
  · unfold densityInvariantAt
    rw [updateFields_density dt st h x z ⟨h1, h2, h3⟩,
      updateFields_pressure dt st h x z ⟨h1, h2, h3⟩,
      updateFields_temperature dt st h x z ⟨h1, h2, h3⟩]
    simp [calculateDensity]

theorem density_invariant_holds_witness :
    (0 < initApp.params.heightLevels ∧ 0 < initApp.params.gridSize) ∧
      (densityInvariantAt (initState appParams 80 60) 0 0 0 ∧
        densityInvariantAt (updateFields 1 initApp) 0 0 0) :=
  ⟨⟨by norm_num [initApp, initState, appParams],
    by norm_num [initApp, initState, appParams]⟩,
   density_invariant_holds appParams 80 60 1 initApp 0 0 0
     (by norm_num [initApp, initState, appParams])
     (by norm_num [initApp, initState, appParams])
     (by norm_num [initApp, initState, appParams])⟩

lemma tempStep_matches_spec (st : State) (h x z : ℕ) :
    tempStep st.params st.heatIntensity st.coldIntensity h x z
        (st.temperatureField h x z) = specTempAfter st h x z := by
  unfold tempStep specTempAfter
  dsimp only
  split_ifs <;> ring

/-- C2: one `updateFields` call gives every cell exactly the temperature
of the specification's pass 1 (heat term added within radius 800, cold
term subtracted within radius 800, lapse correction subtracted), and the
pressure and density of the specification's pass 2 computed from the
pass-1 temperature. -/
theorem updateFields_matches_spec (st : State) (dt : ℝ) (h x z : ℕ)
    (h1 : h < st.params.heightLevels) (h2 : x < st.params.gridSize)
    (h3 : z < st.params.gridSize) :
    (updateFields dt st).temperatureField h x z = specTempAfter st h x z ∧
      (updateFields dt st).pressureField h x z = specPressureAfter st h x z ∧
      (updateFields dt st).densityField h x z = specDensityAfter st h x z := by
  refine ⟨?_, ?_, ?_⟩
  · rw [updateFields_temperature dt st h x z ⟨h1, h2, h3⟩, tempStep_matches_spec]
  · rw [updateFields_pressure dt st h x z ⟨h1, h2, h3⟩, tempStep_matches_spec]
    rfl
  · rw [updateFields_density dt st h x z ⟨h1, h2, h3⟩, tempStep_matches_spec]
    rfl

theorem updateFields_matches_spec_witness :
    (0 < initApp.params.heightLevels ∧ 0 < initApp.params.gridSize) ∧
      ((updateFields 1 initApp).temperatureField 0 0 0 = specTempAfter initApp 0 0 0 ∧
        (updateFields 1 initApp).pressureField 0 0 0 = specPressureAfter initApp 0 0 0 ∧
        (updateFields 1 initApp).densityField 0 0 0 = specDensityAfter initApp 0 0 0) :=
  ⟨⟨by norm_num [initApp, initState, appParams],
    by norm_num [initApp, initState, appParams]⟩,
   updateFields_matches_spec initApp 1 0 0 0
     (by norm_num [initApp, initState, appParams])
     (by norm_num [initApp, initState, appParams])
     (by norm_num [initApp, initState, appParams])⟩

end ThermalSystem

namespace ThermalSystem

lemma spacing_pos (g : ℕ) (hg : 0 < g) : (0 : ℝ) < 4000 / (g : ℝ) := by
  have hgr : (0 : ℝ) < (g : ℝ) := by exact_mod_cast hg
  positivity

lemma floor_coord_neg (c s : ℝ) (hs : 0 < s) (hc : c < 0) : ⌊c / s⌋ < 0 := by
  have : c / s < 0 := div_neg_of_neg_of_pos hc hs
  exact_mod_cast Int.floor_lt.mpr (by push_cast; exact this)

lemma floor_coord_ge (g : ℕ) (hg : 0 < g) (c : ℝ) (hc : 4000 ≤ c) :
    (g : ℤ) ≤ ⌊c / (4000 / (g : ℝ))⌋ := by
  have hgr : (0 : ℝ) < (g : ℝ) := by exact_mod_cast hg
  rw [Int.le_floor]
  push_cast
  rw [le_div_iff (by positivity)]
  have : (g : ℝ) * (4000 / (g : ℝ)) = 4000 := by field_simp
  linarith

lemma floor_height_ge (hl : ℕ) (y : ℝ) (hy : 100 * (hl : ℝ) ≤ y) :
    (hl : ℤ) ≤ ⌊y / 100⌋ := by
  rw [Int.le_floor]
  push_cast
  rw [le_div_iff (by norm_num : (0:ℝ) < 100)]
  linarith

/-- The region `getPressureAt` actually treats as out of range: the code
compares the z index against `gridSize` using the x spacing
`4000/gridSize`, so the accepted z band stretches from -500 to 3500. -/
lemma getPressureAt_sentinel (st : State) (x y z : ℝ) (hg : 0 < st.params.gridSize)
    (hout : x < -2000 ∨ 2000 ≤ x ∨ y < 0 ∨ 100 * (st.params.heightLevels : ℝ) ≤ y ∨
      z < -500 ∨ 3500 ≤ z) :
    getPressureAt st x y z = 101325 := by
  unfold getPressureAt
  dsimp only
  rw [if_neg]
  intro hcond
  obtain ⟨h1, h2, h3, h4, h5, h6⟩ := hcond
  rcases hout with hx | hx | hy | hy | hz | hz
  · have := floor_coord_neg (x + 2000) (4000 / (st.params.gridSize : ℝ))
      (spacing_pos _ hg) (by linarith)
    omega
  · have := floor_coord_ge st.params.gridSize hg (x + 2000) (by linarith)
    omega
  · have := floor_coord_neg y 100 (by norm_num) hy
    have h100 : ⌊y / 100⌋ < 0 := this
    omega
  · have := floor_height_ge st.params.heightLevels y hy
    omega
  · have := floor_coord_neg (z + 500) (4000 / (st.params.gridSize : ℝ))
      (spacing_pos _ hg) (by linarith)
    omega
  · have := floor_coord_ge st.params.gridSize hg (z + 500) (by linarith)
    omega

/-- Same computation for `getTemperatureAt`, whose sentinel is the
configured baseline temperature. -/
lemma getTemperatureAt_sentinel (st : State) (x y z : ℝ) (hg : 0 < st.params.gridSize)
    (hout : x < -2000 ∨ 2000 ≤ x ∨ y < 0 ∨ 100 * (st.params.heightLevels : ℝ) ≤ y ∨
      z < -500 ∨ 3500 ≤ z) :
    getTemperatureAt st x y z = st.params.baseTemperature := by
  unfold getTemperatureAt
  dsimp only
  rw [if_neg]
  intro hcond
  obtain ⟨h1, h2, h3, h4, h5, h6⟩ := hcond
  rcases hout with hx | hx | hy | hy | hz | hz
  · have := floor_coord_neg (x + 2000) (4000 / (st.params.gridSize : ℝ))
      (spacing_pos _ hg) (by linarith)
    omega
  · have := floor_coord_ge st.params.gridSize hg (x + 2000) (by linarith)
    omega
  · have := floor_coord_neg y 100 (by norm_num) hy
    omega
  · have := floor_height_ge st.params.heightLevels y hy
    omega
  · have := floor_coord_neg (z + 500) (4000 / (st.params.gridSize : ℝ))
      (spacing_pos _ hg) (by linarith)
    omega
  · have := floor_coord_ge st.params.gridSize hg (z + 500) (by linarith)
    omega

/-- C3 counterexample: (0, 150, 501) lies outside the specified box
(z = 501 > 500), yet the z bound check uses the x spacing 4000/50 = 80,
so the lookup hits cell (1, 25, 12) and returns its stored pressure,
which in the freshly initialized application state is the baseline
pressure at height 100, strictly below 101325. -/
theorem pressure_sentinel_counterexample :
    ((501 : ℝ) > 500) ∧ getPressureAt initApp 0 150 501 ≠ 101325 := by
  refine ⟨by norm_num, ?_⟩
  have hval : getPressureAt initApp 0 150 501
      = calculateBasePressure (heightOf appParams 1) := by
    unfold getPressureAt
    dsimp only
    have hgrid : initApp.params = appParams := rfl
    rw [hgrid]
    have hx : ⌊((0 : ℝ) + 2000) / (4000 / ((appParams.gridSize : ℕ) : ℝ))⌋ = 25 := by
      rw [show (4000 / ((appParams.gridSize : ℕ) : ℝ)) = 80 by norm_num [appParams]]
      rw [Int.floor_eq_iff]
      norm_num
    have hz : ⌊((501 : ℝ) + 500) / (4000 / ((appParams.gridSize : ℕ) : ℝ))⌋ = 12 := by
      rw [show (4000 / ((appParams.gridSize : ℕ) : ℝ)) = 80 by norm_num [appParams]]
      rw [Int.floor_eq_iff]
      norm_num
    have hy : ⌊(150 : ℝ) / 100⌋ = 1 := by
      rw [Int.floor_eq_iff]
      norm_num
    rw [hx, hz, hy, if_pos (by norm_num [appParams])]
    rfl
  rw [hval]
  have hb0 : (0 : ℝ) ≤ 1 - 0.0065 * (heightOf appParams 1) / 288.15 := by
    norm_num [heightOf, appParams]
  have hb1 : 1 - 0.0065 * (heightOf appParams 1) / 288.15 < 1 := by
    norm_num [heightOf, appParams]
  have hpow := Real.rpow_lt_one hb0 hb1 (by norm_num : (0 : ℝ) < 5.255)
  unfold calculateBasePressure
  nlinarith

/-- C3 amended: outside the box [-2000,2000] x [0,2000] x [-500,3500]
(the z band the index check actually accepts, the x spacing being reused
for z), `getPressureAt` returns exactly 101325, in every grid state with
the application grid configuration. -/
theorem pressure_sentinel_amended (st : State) (x y z : ℝ)
    (hg : st.params.gridSize = 50) (hh : st.params.heightLevels = 20)
    (hout : x < -2000 ∨ x > 2000 ∨ y < 0 ∨ y > 2000 ∨ z < -500 ∨ z > 3500) :
    getPressureAt st x y z = 101325 := by
  apply getPressureAt_sentinel st x y z (by omega)
  rcases hout with h | h | h | h | h | h
  · exact Or.inl h
  · exact Or.inr (Or.inl (le_of_lt h))
  · exact Or.inr (Or.inr (Or.inl h))
  · refine Or.inr (Or.inr (Or.inr (Or.inl ?_)))
    rw [hh]
    push_cast
    linarith
  · exact Or.inr (Or.inr (Or.inr (Or.inr (Or.inl h))))
  · exact Or.inr (Or.inr (Or.inr (Or.inr (Or.inr (le_of_lt h)))))

theorem pressure_sentinel_amended_witness :
    (initApp.params.gridSize = 50 ∧ initApp.params.heightLevels = 20 ∧
      ((3501 : ℝ) > 3500)) ∧ getPressureAt initApp 0 150 3501 = 101325 :=
  ⟨⟨rfl, rfl, by norm_num⟩,
   pressure_sentinel_amended initApp 0 150 3501 rfl rfl
     (Or.inr (Or.inr (Or.inr (Or.inr (Or.inr (by norm_num))))))⟩

end ThermalSystem

namespace ThermalSystem

lemma iterate_params (dt : ℝ) (st : State) (n : ℕ) :
    ((updateFields dt)^[n] st).params = st.params := by
  induction n with
  | zero => rfl
  | succ n ih => rw [Function.iterate_succ_apply', updateFields_params, ih]

lemma iterate_heat (dt : ℝ) (st : State) (n : ℕ) :
    ((updateFields dt)^[n] st).heatIntensity = st.heatIntensity := by
  induction n with
  | zero => rfl
  | succ n ih => rw [Function.iterate_succ_apply', updateFields_heat, ih]

lemma iterate_cold (dt : ℝ) (st : State) (n : ℕ) :
    ((updateFields dt)^[n] st).coldIntensity = st.coldIntensity := by
  induction n with
  | zero => rfl
  | succ n ih => rw [Function.iterate_succ_apply', updateFields_cold, ih]

/-- The temperature pass is pointwise and its per-cell change does not
depend on the temperature, so `n` updates add `n` times the per-cell
net change. -/
lemma iterate_temperature (dt : ℝ) (st : State) (h x z : ℕ)
    (h1 : h < st.params.heightLevels) (h2 : x < st.params.gridSize)
    (h3 : z < st.params.gridSize) (n : ℕ) :
    ((updateFields dt)^[n] st).temperatureField h x z
      = st.temperatureField h x z
        + n * tempDelta st.params st.heatIntensity st.coldIntensity h x z := by
  induction n with
  | zero => simp
  | succ n ih =>
      have hb : h < ((updateFields dt)^[n] st).params.heightLevels ∧
          x < ((updateFields dt)^[n] st).params.gridSize ∧
          z < ((updateFields dt)^[n] st).params.gridSize := by
        rw [iterate_params]; exact ⟨h1, h2, h3⟩
      rw [Function.iterate_succ_apply',
        updateFields_temperature dt ((updateFields dt)^[n] st) h x z hb,
        iterate_params, iterate_heat, iterate_cold, tempStep_eq_delta, ih]
      push_cast
      ring

lemma c4_worldX3 : worldX c4Params 3 = -800 := by norm_num [worldX, c4Params]

lemma c4_worldX7 : worldX c4Params 7 = 800 := by norm_num [worldX, c4Params]

lemma c4_worldZ5 : worldZ c4Params 5 = 0 := by norm_num [worldZ, c4Params]

lemma c4_heatDist35 : heatDist c4Params 3 5 = 0 := by
  unfold heatDist
  rw [c4_worldX3, c4_worldZ5]
  have he : ((-800 : ℝ) - c4Params.heatX) ^ 2 + ((0 : ℝ) - c4Params.heatZ) ^ 2 = 0 := by
    norm_num [c4Params]
  rw [he, Real.sqrt_zero]

lemma c4_coldDist35 : coldDist c4Params 3 5 = 1600 := by
  unfold coldDist
  rw [c4_worldX3, c4_worldZ5]
  have he : ((-800 : ℝ) - c4Params.coldX) ^ 2 + ((0 : ℝ) - c4Params.coldZ) ^ 2
      = 1600 ^ 2 := by
    norm_num [c4Params]
  rw [he, Real.sqrt_sq (by norm_num : (0:ℝ) ≤ 1600)]

lemma c4_heatDist75 : heatDist c4Params 7 5 = 1600 := by
  unfold heatDist
  rw [c4_worldX7, c4_worldZ5]
  have he : ((800 : ℝ) - c4Params.heatX) ^ 2 + ((0 : ℝ) - c4Params.heatZ) ^ 2
      = 1600 ^ 2 := by
    norm_num [c4Params]
  rw [he, Real.sqrt_sq (by norm_num : (0:ℝ) ≤ 1600)]

lemma c4_coldDist75 : coldDist c4Params 7 5 = 0 := by
  unfold coldDist
  rw [c4_worldX7, c4_worldZ5]
  have he : ((800 : ℝ) - c4Params.coldX) ^ 2 + ((0 : ℝ) - c4Params.coldZ) ^ 2 = 0 := by
    norm_num [c4Params]
  rw [he, Real.sqrt_zero]

/-- At the cell under the heat source, one update adds exactly 0.1. -/
lemma c4_delta_heatcell : tempDelta c4Params 100 0 0 3 5 = 0.1 := by
  unfold tempDelta
  rw [c4_heatDist35, c4_coldDist35,
    if_pos (by norm_num : (0:ℝ) < 800), if_neg (by norm_num : ¬ (1600:ℝ) < 800)]
  norm_num [heightOf, c4Params]

/-- At the cell under the (zero-intensity) cold source, one update adds
exactly 0. -/
lemma c4_delta_coldcell : tempDelta c4Params 100 0 0 7 5 = 0 := by
  unfold tempDelta
  rw [c4_heatDist75, c4_coldDist75,
    if_neg (by norm_num : ¬ (1600:ℝ) < 800), if_pos (by norm_num : (0:ℝ) < 800)]
  norm_num [heightOf, c4Params]

lemma c4_T0_heat : c4State.temperatureField 0 3 5 = 20 := by
  norm_num [c4State, initState, initTemperature, heightOf, c4Params]

lemma c4_T100_heat :
    ((updateFields 0.1)^[100] c4State).temperatureField 0 3 5 = 30 := by
  rw [iterate_temperature 0.1 c4State 0 3 5
    (by norm_num [c4State, initState, c4Params])
    (by norm_num [c4State, initState, c4Params])
    (by norm_num [c4State, initState, c4Params]) 100]
  rw [show c4State.params = c4Params from rfl,
    show c4State.heatIntensity = 100 from rfl,
    show c4State.coldIntensity = 0 from rfl,
    c4_delta_heatcell, c4_T0_heat]
  norm_num

lemma c4_T100_cold :
    ((updateFields 0.1)^[100] c4State).temperatureField 0 7 5 = 20 := by
  rw [iterate_temperature 0.1 c4State 0 7 5
    (by norm_num [c4State, initState, c4Params])
    (by norm_num [c4State, initState, c4Params])
    (by norm_num [c4State, initState, c4Params]) 100]
  rw [show c4State.params = c4Params from rfl,
    show c4State.heatIntensity = 100 from rfl,
    show c4State.coldIntensity = 0 from rfl,
    c4_delta_coldcell]
  norm_num [c4State, initState, initTemperature, heightOf, c4Params]

/-- C4 counterexample: in the 10 x 10 x 4 scenario with heat intensity
100 at (-800,0) and cold intensity 0 at (800,0), after 100 updates with
dt = 0.1 the cell nearest (-800, lowest altitude, 0) — grid cell
(h,x,z) = (0,3,5), whose world position is exactly (-800, 0) — holds
30 degrees, strictly above the 20 degrees of the cell nearest
(800, lowest altitude, 0) (grid cell (0,7,5)), so it does not remain
lower. -/
theorem scenario_counterexample :
    ¬ (((updateFields 0.1)^[100] c4State).temperatureField 0 3 5
        < ((updateFields 0.1)^[100] c4State).temperatureField 0 7 5) := by
  rw [c4_T100_heat, c4_T100_cold]
  norm_num

/-- C4 amended: in the scenario, the cell nearest (-800, lowest
altitude, 0) strictly increases versus its initial value and ends
strictly HIGHER than the cell nearest (800, lowest altitude, 0). -/
theorem scenario_amended :
    c4State.temperatureField 0 3 5
        < ((updateFields 0.1)^[100] c4State).temperatureField 0 3 5 ∧
      ((updateFields 0.1)^[100] c4State).temperatureField 0 7 5
        < ((updateFields 0.1)^[100] c4State).temperatureField 0 3 5 := by
  rw [c4_T100_heat, c4_T100_cold, c4_T0_heat]
  norm_num

end ThermalSystem

namespace ParticleSystem

lemma initializeParticle_pos_self (ps : PState) (i : ℕ) :
    (initializeParticle ps i).positions i
      = ⟨freshX (ps.rng ps.rngIndex), freshY (ps.rng (ps.rngIndex + 1)),
         freshZ (ps.rng (ps.rngIndex + 2))⟩ := by
  simp [initializeParticle]

lemma initializeParticle_vel_self (ps : PState) (i : ℕ) :
    (initializeParticle ps i).velocities i = ⟨0, 0, 0⟩ := by
  simp [initializeParticle]

lemma vlen_zero : vlen ⟨0, 0, 0⟩ = 0 := by
  unfold vlen
  norm_num

lemma vlen_smul (c : ℝ) (v : Vec3) : vlen (smul c v) = |c| * vlen v := by
  unfold vlen smul
  dsimp only
  rw [show (c * v.x) ^ 2 + (c * v.y) ^ 2 + (c * v.z) ^ 2
      = c ^ 2 * (v.x ^ 2 + v.y ^ 2 + v.z ^ 2) by ring]
  rw [Real.sqrt_mul (sq_nonneg c), Real.sqrt_sq_eq_abs]

lemma velClamped_le (th : ThermalSystem.State) (ps : PState) (i : ℕ) (dt : ℝ) :
    vlen (velClamped th ps i dt) ≤ 20 := by
  unfold velClamped
  dsimp only
  split_ifs with h
  · rw [vlen_smul]
    have hpos : (0 : ℝ) < vlen (smul 0.98 (velAfterForces th ps i dt)) := by linarith
    rw [abs_of_pos (by positivity)]
    rw [div_mul_cancel₀ _ (ne_of_gt hpos)]
  · linarith [not_lt.mp h]

/-- C5: whenever the integrated position of one advect step escapes the
domain, the slot is reinitialized in place: it receives the fresh
stream-drawn position (in bounds whenever the stream stays in [0,1)),
zero velocity, the capacity is unchanged and no other slot is touched. -/
theorem recycle_on_escape (th : ThermalSystem.State) (ps : PState) (i : ℕ) (dt : ℝ)
    (hrng : ∀ n, 0 ≤ ps.rng n ∧ ps.rng n < 1)
    (hout : outOfBounds (integratedPos th ps i dt)) :
    (updateParticle th ps i dt).positions i
        = ⟨freshX (ps.rng ps.rngIndex), freshY (ps.rng (ps.rngIndex + 1)),
           freshZ (ps.rng (ps.rngIndex + 2))⟩ ∧
      (-2000 ≤ ((updateParticle th ps i dt).positions i).x ∧
        ((updateParticle th ps i dt).positions i).x ≤ 2000) ∧
      (0 ≤ ((updateParticle th ps i dt).positions i).y ∧
        ((updateParticle th ps i dt).positions i).y ≤ 2000) ∧
      (-500 ≤ ((updateParticle th ps i dt).positions i).z ∧
        ((updateParticle th ps i dt).positions i).z ≤ 500) ∧
      (updateParticle th ps i dt).velocities i = ⟨0, 0, 0⟩ ∧
      (updateParticle th ps i dt).maxParticles = ps.maxParticles ∧
      (∀ j, j ≠ i → (updateParticle th ps i dt).positions j = ps.positions j ∧
        (updateParticle th ps i dt).velocities j = ps.velocities j) := by
  have hup : updateParticle th ps i dt
      = initializeParticle
          { ps with
            positions := Function.update ps.positions i (integratedPos th ps i dt)
            velocities := Function.update ps.velocities i (velClamped th ps i dt) } i := by
    unfold updateParticle
    dsimp only
    rw [if_pos hout]
  obtain ⟨hx0, hx1⟩ := hrng ps.rngIndex
  obtain ⟨hy0, hy1⟩ := hrng (ps.rngIndex + 1)
  obtain ⟨hz0, hz1⟩ := hrng (ps.rngIndex + 2)
  rw [hup]
  refine ⟨by simp [initializeParticle], ?_, ?_, ?_,
    by simp [initializeParticle], rfl, ?_⟩
  · rw [initializeParticle_pos_self]
    unfold freshX
    dsimp only
    constructor <;> nlinarith
  · rw [initializeParticle_pos_self]
    unfold freshY
    dsimp only
    constructor <;> nlinarith
  · rw [initializeParticle_pos_self]
    unfold freshZ
    dsimp only
    constructor <;> nlinarith
  · intro j hj
    constructor
    · simp [initializeParticle, Function.update_noteq hj]
    · simp [initializeParticle, Function.update_noteq hj]

/-- Out of the accepted x band, the wind vector degenerates to zero:
every pressure sample hits the 101325 sentinel and both temperature
samples hit the baseline sentinel. -/
lemma wind_far (st : ThermalSystem.State) (hg : st.params.gridSize = 50)
    (x y z : ℝ) (hx : 2000 ≤ x) :
    ThermalSystem.getWindVectorAt st x y z = ⟨0, 0, 0⟩ := by
  have hg0 : 0 < st.params.gridSize := by omega
  have h0 := ThermalSystem.getPressureAt_sentinel st x y z hg0 (Or.inr (Or.inl hx))
  have h1 := ThermalSystem.getPressureAt_sentinel st (x + 50) y z hg0
    (Or.inr (Or.inl (by linarith)))
  have h2 := ThermalSystem.getPressureAt_sentinel st x y (z + 50) hg0
    (Or.inr (Or.inl hx))
  have h3 := ThermalSystem.getTemperatureAt_sentinel st x y z hg0 (Or.inr (Or.inl hx))
  have h4 := ThermalSystem.getTemperatureAt_sentinel st x (y - 100) z hg0
    (Or.inr (Or.inl hx))
  unfold ThermalSystem.getWindVectorAt
  dsimp only
  rw [h0, h1, h2, h3, h4]
  simp [Vec3.mk.injEq]

lemma psW_velClamped : velClamped initApp psW 0 1 = ⟨0, 0, 0⟩ := by
  have hwind : ThermalSystem.getWindVectorAt initApp 3000 1000 0 = ⟨0, 0, 0⟩ :=
    wind_far initApp rfl 3000 1000 0 (by norm_num)
  have hbase : ThermalSystem.getTemperatureAt initApp 3000 1000 0 = 20 := by
    rw [ThermalSystem.getTemperatureAt_sentinel initApp 3000 1000 0 (by norm_num [initApp, ThermalSystem.initState, appParams]) (Or.inr (Or.inl (by norm_num)))]
    rfl
  have hforces : velAfterForces initApp psW 0 1 = ⟨0, 0, 0⟩ := by
    unfold velAfterForces buoyancyForce
    dsimp only
    rw [show psW.positions 0 = ⟨3000, 1000, 0⟩ from rfl,
      show psW.velocities 0 = ⟨0, 0, 0⟩ from rfl]
    dsimp only
    rw [hwind, hbase]
    simp [Vec3.mk.injEq]
  unfold velClamped
  dsimp only
  rw [hforces, show smul 0.98 ⟨0, 0, 0⟩ = ⟨0, 0, 0⟩ by unfold smul; simp,
    vlen_zero, if_neg (by norm_num : ¬ (0 : ℝ) > 20)]

lemma psW_escapes : outOfBounds (integratedPos initApp psW 0 1) := by
  have hpos : integratedPos initApp psW 0 1 = ⟨3000, 1000, 0⟩ := by
    unfold integratedPos
    dsimp only
    rw [psW_velClamped, show psW.positions 0 = ⟨3000, 1000, 0⟩ from rfl]
    simp [Vec3.mk.injEq]
  rw [hpos]
  unfold outOfBounds
  left
  rw [show |(3000 : ℝ)| = 3000 by norm_num]
  norm_num

theorem recycle_on_escape_witness :
    ((∀ n, 0 ≤ psW.rng n ∧ psW.rng n < 1) ∧
        outOfBounds (integratedPos initApp psW 0 1)) ∧
      ((updateParticle initApp psW 0 1).positions 0
          = ⟨freshX (psW.rng psW.rngIndex), freshY (psW.rng (psW.rngIndex + 1)),
             freshZ (psW.rng (psW.rngIndex + 2))⟩ ∧
        (-2000 ≤ ((updateParticle initApp psW 0 1).positions 0).x ∧
          ((updateParticle initApp psW 0 1).positions 0).x ≤ 2000) ∧
        (0 ≤ ((updateParticle initApp psW 0 1).positions 0).y ∧
          ((updateParticle initApp psW 0 1).positions 0).y ≤ 2000) ∧
        (-500 ≤ ((updateParticle initApp psW 0 1).positions 0).z ∧
          ((updateParticle initApp psW 0 1).positions 0).z ≤ 500) ∧
        (updateParticle initApp psW 0 1).velocities 0 = ⟨0, 0, 0⟩ ∧
        (updateParticle initApp psW 0 1).maxParticles = psW.maxParticles ∧
        (∀ j, j ≠ 0 → (updateParticle initApp psW 0 1).positions j = psW.positions j ∧
          (updateParticle initApp psW 0 1).velocities j = psW.velocities j)) :=
  ⟨⟨fun n => by constructor <;> norm_num [psW], psW_escapes⟩,
   recycle_on_escape initApp psW 0 1
     (fun n => by constructor <;> norm_num [psW]) psW_escapes⟩

end ParticleSystem

namespace ParticleSystem

lemma updateParticle_vel_self (th : ThermalSystem.State) (ps : PState) (i : ℕ) (dt : ℝ) :
    vlen ((updateParticle th ps i dt).velocities i) ≤ 20 := by
  unfold updateParticle
  dsimp only
  split_ifs with h
  · rw [initializeParticle_vel_self, vlen_zero]
    norm_num
  · dsimp only
    rw [Function.update_same]
    exact velClamped_le th ps i dt

lemma updateParticle_vel_other (th : ThermalSystem.State) (ps : PState) (i : ℕ)
    (dt : ℝ) (j : ℕ) (hj : j ≠ i) :
    (updateParticle th ps i dt).velocities j = ps.velocities j := by
  unfold updateParticle
  dsimp only
  split_ifs with h
  · simp [initializeParticle, Function.update_noteq hj]
  · simp [Function.update_noteq hj]

lemma fold_vel_le (th : ThermalSystem.State) (dt : ℝ) (j : ℕ) :
    ∀ (l : List ℕ) (s : PState),
      (j ∈ l ∨ vlen (s.velocities j) ≤ 20) →
      vlen ((l.foldl (fun a i => updateParticle th a i dt) s).velocities j) ≤ 20 := by
  intro l
  induction l with
  | nil =>
      intro s hs
      rcases hs with h | h
      · exact absurd h (List.not_mem_nil j)
      · simpa using h
  | cons i l ih =>
      intro s hs
      rw [List.foldl_cons]
      apply ih
      by_cases hji : j = i
      · right
        subst hji
        exact updateParticle_vel_self th s j dt
      · rcases hs with h | h
        · rcases List.mem_cons.mp h with h' | h'
          · exact absurd h' hji
          · exact Or.inl h'
        · right
          rw [updateParticle_vel_other th s i dt j hji]
          exact h

/-- C6: after an (active) `update` call, every particle slot below the
capacity holds a velocity of magnitude at most 20, whether the slot was
recycled during the call (velocity reset to zero) or integrated
(velocity clamped to at most 20). -/
theorem speed_clamp_after_update (th : ThermalSystem.State) (ps : PState)
    (dt : ℝ) (j : ℕ) (ha : ps.isActive = true) (hj : j < ps.maxParticles) :
    vlen ((update th ps dt).velocities j) ≤ 20 := by
  unfold update
  rw [if_pos ha]
  exact fold_vel_le th (dt * ps.particleSpeed) j (List.range ps.maxParticles) ps
    (Or.inl (List.mem_range.mpr hj))

theorem speed_clamp_after_update_witness :
    (psW.isActive = true ∧ 0 < psW.maxParticles) ∧
      vlen ((update initApp psW 1).velocities 0) ≤ 20 :=
  ⟨⟨rfl, Nat.one_pos⟩,
   speed_clamp_after_update initApp psW 1 0 rfl Nat.one_pos⟩

/-- C7 amended: the term added to the vertical velocity component during
one advect step (beyond the wind contribution) is
`(temperatureAt(position) - 20) * 0.001 * dt`, where 20 is the constant
`baseTemperature` hard-coded inside `updateParticle` — it coincides with
the default baseline but is not read from the configuration. -/
theorem buoyancy_term_amended (th : ThermalSystem.State) (ps : PState)
    (i : ℕ) (dt : ℝ) :
    (velAfterForces th ps i dt).y
      = (ps.velocities i).y
        + (ThermalSystem.getWindVectorAt th (ps.positions i).x (ps.positions i).y
            (ps.positions i).z).y * dt
        + (ThermalSystem.getTemperatureAt th (ps.positions i).x (ps.positions i).y
            (ps.positions i).z - 20) * 0.001 * dt := by
  unfold velAfterForces buoyancyForce
  dsimp only

/-- C7 counterexample: with the baseline temperature configured to 30,
the buoyancy term added for a particle at (3000, 1000, 0) (where the
temperature query returns the baseline sentinel 30) is
`(30 - 20) * 0.001 = 0.01`, not the `(30 - 30) * 0.001 = 0` the claim
predicts from the configured baseline. -/
theorem buoyancy_term_counterexample :
    (velAfterForces th30 psW 0 1).y
      ≠ (psW.velocities 0).y
        + (ThermalSystem.getWindVectorAt th30 (psW.positions 0).x (psW.positions 0).y
            (psW.positions 0).z).y * 1
        + (ThermalSystem.getTemperatureAt th30 (psW.positions 0).x (psW.positions 0).y
            (psW.positions 0).z - th30.params.baseTemperature) * 0.001 * 1 := by
  have hg : th30.params.gridSize = 50 := rfl
  have hg0 : 0 < th30.params.gridSize := by omega
  have htemp : ThermalSystem.getTemperatureAt th30 3000 1000 0 = 30 := by
    rw [ThermalSystem.getTemperatureAt_sentinel th30 3000 1000 0 hg0
      (Or.inr (Or.inl (by norm_num)))]
    rfl
  have hwind : ThermalSystem.getWindVectorAt th30 3000 1000 0 = ⟨0, 0, 0⟩ :=
    wind_far th30 rfl 3000 1000 0 (by norm_num)
  have hbase30 : th30.params.baseTemperature = 30 := rfl
  rw [show psW.positions 0 = ⟨3000, 1000, 0⟩ from rfl,
    show psW.velocities 0 = ⟨0, 0, 0⟩ from rfl]
  unfold velAfterForces buoyancyForce
  dsimp only
  rw [show psW.positions 0 = ⟨3000, 1000, 0⟩ from rfl,
    show psW.velocities 0 = ⟨0, 0, 0⟩ from rfl]
  dsimp only
  rw [htemp, hwind, hbase30]
  dsimp only
  norm_num

end ParticleSystem

namespace ParticleSystem

lemma initializeParticle_vel_other (ps : PState) (i j : ℕ) (h : j ≠ i) :
    (initializeParticle ps i).velocities j = ps.velocities j := by
  simp [initializeParticle, Function.update_noteq h]

lemma initializeParticle_pos_other (ps : PState) (i j : ℕ) (h : j ≠ i) :
    (initializeParticle ps i).positions j = ps.positions j := by
  simp [initializeParticle, Function.update_noteq h]

lemma foldInit_velLen : ∀ (l : List ℕ) (s : PState),
    ((l.foldl (fun a j => initializeParticle a j) s).velLen)
      = l.foldl (fun a j => max a (j + 1)) s.velLen := by
  intro l
  induction l with
  | nil => intro s; rfl
  | cons i l ih =>
      intro s
      rw [List.foldl_cons, List.foldl_cons, ih]
      rfl

lemma foldl_max_range : ∀ (n : ℕ) (a : ℕ),
    (List.range n).foldl (fun b j => max b (j + 1)) a = max a n := by
  intro n
  induction n with
  | zero => intro a; simp
  | succ n ih =>
      intro a
      rw [List.range_succ, List.foldl_append, ih]
      simp only [List.foldl_cons, List.foldl_nil]
      omega

lemma foldInit_spec : ∀ (n : ℕ) (s : PState),
    ((List.range n).foldl (fun a j => initializeParticle a j) s).maxParticles
        = s.maxParticles
    ∧ ((List.range n).foldl (fun a j => initializeParticle a j) s).rng = s.rng
    ∧ ((List.range n).foldl (fun a j => initializeParticle a j) s).rngIndex
        = s.rngIndex + 3 * n
    ∧ ∀ i, i < n →
        ((List.range n).foldl (fun a j => initializeParticle a j) s).velocities i
            = ⟨0, 0, 0⟩
        ∧ ((List.range n).foldl (fun a j => initializeParticle a j) s).positions i
            = ⟨freshX (s.rng (s.rngIndex + 3 * i)),
               freshY (s.rng (s.rngIndex + 3 * i + 1)),
               freshZ (s.rng (s.rngIndex + 3 * i + 2))⟩ := by
  intro n
  induction n with
  | zero =>
      intro s
      refine ⟨rfl, rfl, by simp, ?_⟩
      intro i hi
      exact absurd hi (Nat.not_lt_zero i)
  | succ n ih =>
      intro s
      obtain ⟨hmax, hrng, hidx, hslots⟩ := ih s
      have hfold : (List.range (n + 1)).foldl (fun a j => initializeParticle a j) s
          = initializeParticle
              ((List.range n).foldl (fun a j => initializeParticle a j) s) n := by
        rw [List.range_succ, List.foldl_append, List.foldl_cons, List.foldl_nil]
      rw [hfold]
      refine ⟨hmax, hrng, ?_, ?_⟩
      · rw [show (initializeParticle
            ((List.range n).foldl (fun a j => initializeParticle a j) s) n).rngIndex
            = ((List.range n).foldl (fun a j => initializeParticle a j) s).rngIndex + 3
            from rfl, hidx]
        omega
      · intro i hi
        by_cases hin : i < n
        · obtain ⟨hv, hp⟩ := hslots i hin
          have hne : i ≠ n := Nat.ne_of_lt hin
          exact ⟨by rw [initializeParticle_vel_other _ _ _ hne]; exact hv,
            by rw [initializeParticle_pos_other _ _ _ hne]; exact hp⟩
        · have heq : i = n := by omega
          subst heq
          refine ⟨initializeParticle_vel_self _ _, ?_⟩
          rw [initializeParticle_pos_self, hrng, hidx]

/-- What `createParticleSystem` guarantees: the capacity is kept, every
slot below it is freshly initialized from the stream in order, and the
`velocities` array length only ever grows to `max` of old and new. -/
lemma createParticleSystem_spec (q : PState) :
    (createParticleSystem q).maxParticles = q.maxParticles ∧
    (createParticleSystem q).velLen = max q.velLen q.maxParticles ∧
    ∀ i, i < q.maxParticles →
      (createParticleSystem q).velocities i = ⟨0, 0, 0⟩ ∧
      (createParticleSystem q).positions i
        = ⟨freshX (q.rng (q.rngIndex + 3 * i)),
           freshY (q.rng (q.rngIndex + 3 * i + 1)),
           freshZ (q.rng (q.rngIndex + 3 * i + 2))⟩ := by
  unfold createParticleSystem
  obtain ⟨hmax, hrng, hidx, hslots⟩ :=
    foldInit_spec q.maxParticles { q with positions := fun _ => ⟨0, 0, 0⟩ }
  refine ⟨hmax, ?_, ?_⟩
  · rw [foldInit_velLen, foldl_max_range]
  · intro i hi
    exact hslots i hi

/-- C9 amended: `setParticleCount(v)` clamps to `c = clamp(v, 100, 2000)`
without erroring, sets the capacity to `c`, and freshly initializes every
slot below `c` (stream-drawn position, zero velocity) over a recreated
positions array; the `velocities` array, however, is never shrunk: its
length becomes `max` of the old length and `c`, so a shrinking resize
leaves stale velocity entries at indices at or above `c`. -/
theorem setParticleCount_amended (ps : PState) (v : ℤ) (i : ℕ)
    (hi : i < (max 100 (min 2000 v)).toNat) :
    (setParticleCount ps v).maxParticles = (max 100 (min 2000 v)).toNat ∧
      (setParticleCount ps v).velocities i = ⟨0, 0, 0⟩ ∧
      (setParticleCount ps v).positions i
        = ⟨freshX (ps.rng (ps.rngIndex + 3 * i)),
           freshY (ps.rng (ps.rngIndex + 3 * i + 1)),
           freshZ (ps.rng (ps.rngIndex + 3 * i + 2))⟩ ∧
      (setParticleCount ps v).velLen = max ps.velLen (max 100 (min 2000 v)).toNat := by
  unfold setParticleCount
  dsimp only
  obtain ⟨hmax, hlen, hslots⟩ :=
    createParticleSystem_spec { ps with maxParticles := (max 100 (min 2000 v)).toNat }
  obtain ⟨hv, hp⟩ := hslots i hi
  exact ⟨hmax, hv, hp, hlen⟩

theorem setParticleCount_amended_witness :
    (0 < (max 100 (min 2000 (100 : ℤ))).toNat) ∧
      ((setParticleCount psW 100).maxParticles = (max 100 (min 2000 (100 : ℤ))).toNat ∧
        (setParticleCount psW 100).velocities 0 = ⟨0, 0, 0⟩ ∧
        (setParticleCount psW 100).positions 0
          = ⟨freshX (psW.rng (psW.rngIndex + 3 * 0)),
             freshY (psW.rng (psW.rngIndex + 3 * 0 + 1)),
             freshZ (psW.rng (psW.rngIndex + 3 * 0 + 2))⟩ ∧
        (setParticleCount psW 100).velLen
          = max psW.velLen (max 100 (min 2000 (100 : ℤ))).toNat) :=
  ⟨by norm_num, setParticleCount_amended psW 100 0 (by norm_num)⟩

/-- C9 counterexample: construct the system at capacity 1000 (so the
`velocities` array has length 1000), then `setParticleCount(100)`.  The
claim demands that all per-particle storage afterwards hold exactly
`clamp(100, 100, 2000) = 100` particles, but the `velocities` array still
holds 1000 entries — state of the previous set survives the resize. -/
theorem setParticleCount_counterexample :
    (setParticleCount (mkParticleSystem 1000 1 (fun _ => 0)) 100).velLen = 1000 ∧
      (1000 : ℕ) ≠ (max 100 (min 2000 (100 : ℤ))).toNat := by
  constructor
  · have h1 : (mkParticleSystem 1000 1 (fun _ => 0)).velLen = 1000 := by
      unfold mkParticleSystem
      rw [(createParticleSystem_spec _).2.1]
      dsimp only
      omega
    unfold setParticleCount
    dsimp only
    rw [(createParticleSystem_spec _).2.1]
    dsimp only
    rw [h1]
    omega
  · omega

end ParticleSystem
